import Mathlib

/-!
Verification of the rust-analyzer command-line argument parser
(`crates/rust-analyzer/src/bin/args.rs`).

The parser turns the raw process argument list into a `Verbosity`, an
optional log-file path and a `Command`, or fails with a descriptive error.
The token-consumer substrate (`pico_args::Arguments`) and the auxiliary
types of `rust_analyzer::cli` are external to the sources at hand; they are
modelled from the specification, as marked on each definition.
-/

namespace ArgsRs

/-- Modelled from the spec: the `Verbosity` enum of `rust_analyzer::cli`
(not among the sources): a closed enumeration Quiet, Normal, Verbose,
Spammy (§3). -/
inductive Verbosity where
  | quiet
  | normal
  | verbose
  | spammy
  deriving DecidableEq

/-- Modelled from the spec: `rust_analyzer::cli::Position` (not among the
sources), parsed from a single colon-delimited token `PATH:LINE:COLUMN`
(§3). -/
structure Position where
  path : String
  line : Nat
  column : Nat
  deriving DecidableEq

/-- Modelled from the spec: `rust_analyzer::cli::BenchWhat` (not among the
sources): a tagged union Highlight / Complete / GotoDef (§3). -/
inductive BenchWhat where
  | highlight (path : String)
  | complete (position : Position)
  | gotoDef (position : Position)
  deriving DecidableEq

/-- Modelled from the spec: `rust_analyzer::cli::AnalysisStatsCmd` (not
among the sources); field order follows the construction site in
`args.rs` lines 178-187. -/
structure AnalysisStatsCmd where
  randomize : Bool
  parallel : Bool
  memoryUsage : Bool
  only : Option String
  withDeps : Bool
  path : String
  loadOutputDirs : Bool
  withProcMacro : Bool
  deriving DecidableEq

/-- Modelled from the spec: `rust_analyzer::cli::BenchCmd` (not among the
sources); field order follows the construction site in `args.rs` lines
216-222. -/
structure BenchCmd where
  memoryUsage : Bool
  path : String
  what : BenchWhat
  loadOutputDirs : Bool
  withProcMacro : Bool
  deriving DecidableEq

/-- The `Command` enum of `args.rs` lines 20-33.  `ssr` rules and `search`
patterns are opaque descriptors produced by external parsers and are kept
as the strings those parsers accepted.  The `ProcMacro` variant is named
`procMacroServer` after the spec's `ProcMacroServer`. -/
inductive Command where
  | parse (noDump : Bool)
  | symbols
  | highlight (rainbow : Bool)
  | analysisStats (cmd : AnalysisStatsCmd)
  | bench (cmd : BenchCmd)
  | diagnostics (path : String) (loadOutputDirs : Bool) (withProcMacro : Bool)
  | ssr (rules : List String)
  | structuredSearch (debugSnippet : Option String) (patterns : List String)
  | procMacroServer
  | runServer
  | version
  | help
  deriving DecidableEq

/-- The `Args` struct of `args.rs` lines 14-18. -/
structure Args where
  verbosity : Verbosity
  logFile : Option String
  command : Command
  deriving DecidableEq

/-- The errors the parser can return.  Each constructor corresponds to a
distinct failure site of the source:
`flagConflict` to the two verbosity bail sites (lines 126 and 131),
`unrecognizedArguments` to `finish().or_else(handle_extra_flags)`
(lines 262-273, message lists the leftover tokens),
`arityMismatch` to the `Invalid flags` bail at the single-positional-path
checks (lines 172-174, 210-212, 229-231),
`optionWithoutAValue` and `malformedValue` to the token consumer's
option-value extraction failures, and
`argumentParsingFailed` to a per-element free-token conversion failure. -/
inductive ArgError where
  | flagConflict (left right : String)
  | unrecognizedArguments (toks : List String)
  | arityMismatch
  | optionWithoutAValue (key : String)
  | malformedValue (key value : String)
  | argumentParsingFailed (value : String)
  deriving DecidableEq

/-- Outcome of a parse: a successful `Args`, a recoverable error returned
to the caller, or a process abort (`panic!` in the source, which the
shallow embedding records as a distinct outcome since it is not a value
returned to the caller). -/
inductive ParseOutcome where
  | ok (args : Args)
  | err (e : ArgError)
  | panic (msg : String)
  deriving DecidableEq

/-- Modelled from the spec: the external collaborators the parser
delegates to and does not validate itself — the opaque `ssr` rule parser,
the opaque `search` pattern parser (§7, glossary) and the process current
directory used by the `--highlight` bench target (`env::current_dir()`). -/
structure Ext where
  ruleParse : String → Option String
  patParse : String → Option String
  currentDir : String

/-- Does the token equal one of the given flag aliases? -/
def keyMatch (keys : List String) (t : String) : Bool :=
  keys.any (fun k => k == t)

/-- Modelled from the spec: the presence half of the Token Consumer's
`has_flag(names)` — whether any alias is present among the unconsumed
tokens (§4.1). -/
def hasAny (keys toks : List String) : Bool :=
  toks.any (fun t => keyMatch keys t)

/-- Modelled from the spec: the removal half of the Token Consumer's
`has_flag(names)` — the first matching token is removed; when no alias is
present the state is unchanged (§4.1). -/
def removeFirst (keys : List String) : List String → List String
  | [] => []
  | t :: rest => if keyMatch keys t then rest else t :: removeFirst keys rest

/-- Modelled from the spec: the Token Consumer's `has_flag(names)` (§4.1):
reports presence of any alias and removes the first occurrence. -/
def hasFlag (keys toks : List String) : Bool × List String :=
  (hasAny keys toks, removeFirst keys toks)

/-- Modelled from the spec: the Token Consumer's `take_option_value(names)`
(§4.1): finds the first alias occurrence, takes the following token as the
attached value, and fails when the value cannot be converted to the target
shape (or when no value token follows). -/
def takeOptionValueWith (conv : String → Option α) (keys : List String) :
    List String → Except ArgError (Option α × List String)
  | [] => .ok (none, [])
  | t :: rest =>
    if keyMatch keys t then
      match rest with
      | [] => .error (.optionWithoutAValue t)
      | v :: rest2 =>
        match conv v with
        | some a => .ok (some a, rest2)
        | none => .error (.malformedValue t v)
    else
      match takeOptionValueWith conv keys rest with
      | .ok (r, rest2) => .ok (r, t :: rest2)
      | .error e => .error e

/-- `take_option_value` at an infallible string conversion (used for
`--log-file`, `-o` and `--only`, `--highlight`, `--debug`, whose Rust target
types convert from any string). -/
def takeOptionValueStr (keys toks : List String) :
    Except ArgError (Option String × List String) :=
  takeOptionValueWith (fun s => some s) keys toks

/-- Modelled from the spec: parsing of a `PATH:LINE:COLUMN` token into a
`Position`; the two rightmost colon-separated segments are the line and
column numbers and the rest is the path; a missing segment or a
non-numeric line or column fails (§3, §7 MalformedValue). -/
def parsePosition (s : String) : Option Position :=
  match (s.splitOn ":").reverse with
  | column :: line :: firstSeg :: restSegs =>
    match line.toNat?, column.toNat? with
    | some l, some c => some ⟨String.intercalate ":" (firstSeg :: restSegs).reverse, l, c⟩
    | _, _ => none
  | _ => none

/-- `take_option_value` at the `Position` conversion (used for
`--complete` and `--goto-def`). -/
def takeOptionValuePos (keys toks : List String) :
    Except ArgError (Option Position × List String) :=
  takeOptionValueWith parsePosition keys toks

/-- A token beginning with the flag marker `-` (spec glossary). -/
def isFlag (s : String) : Bool :=
  match s.data with
  | c :: _ => c == '-'
  | [] => false

/-- Modelled from the spec: the Token Consumer's `take_subcommand()`
(§4.1): removes and returns the first unconsumed token if it does not
begin with a flag marker; otherwise leaves the state unchanged. -/
def takeSubcommand : List String → Option String × List String
  | [] => (none, [])
  | t :: rest => if isFlag t then (none, t :: rest) else (some t, rest)

/-- The source's `finish().or_else(handle_extra_flags)` (the two are
paired at every `finish` call site: lines 113, 143, 150, 154, 159):
succeeds when no tokens remain, otherwise fails listing all still
unconsumed tokens. -/
def finish (toks : List String) : Except ArgError Unit :=
  match toks with
  | [] => .ok ()
  | _ => .error (.unrecognizedArguments toks)

/-- Modelled from the spec: the Token Consumer's `take_positional(1)`
(§4.1): removes all remaining non-flag tokens and fails with the arity
error (`Invalid flags` in the source) unless exactly one remains; that one
is the positional path (the source's `free()` / length check / `pop`). -/
def takePositional1 (toks : List String) : Except ArgError String :=
  match toks.filter (fun t => !(isFlag t)) with
  | [t] => .ok t
  | _ => .error .arityMismatch

/-- Modelled from the spec: the Token Consumer's `take_remaining_as`
(§4.1): every remaining token is converted in order, failing per element
on a conversion failure (the source's `free_from_str` loop). -/
def takeRemainingAs (conv : String → Option α) :
    List String → Except ArgError (List α)
  | [] => .ok []
  | t :: rest =>
    match conv t with
    | none => .error (.argumentParsingFailed t)
    | some r =>
      match takeRemainingAs conv rest with
      | .ok rs => .ok (r :: rs)
      | .error e => .error e

/-- `PathBuf::join` on an absolute base directory: an absolute right-hand
path replaces the base, a relative one is appended (used by the
`--highlight` bench target, line 195). -/
def joinPath (base p : String) : String :=
  match p.data with
  | '/' :: _ => p
  | _ => base ++ "/" ++ p

/-- The message of the `panic!` at `args.rs` lines 200-202. -/
def benchPanicMsg : String :=
  "exactly one of  `--highlight`, `--complete` or `--goto-def` must be set"

/-- Number of `some`s, for counting how many of the three bench target
options were supplied. -/
def optCount (o : Option α) : Nat :=
  match o with
  | some _ => 1
  | none => 0

/-- The verbosity resolution of `args.rs` lines 121-132: the three flag
groups are tested (and consumed) in the order `-vv` or `--spammy`,
`-v` or `--verbose`, `-q` or `--quiet`, and the resulting triple is matched against
the source's table. -/
def resolveVerbosity (toks : List String) :
    Except ArgError (Verbosity × List String) :=
  let p1 := hasFlag ["-vv", "--spammy"] toks
  let p2 := hasFlag ["-v", "--verbose"] p1.2
  let p3 := hasFlag ["-q", "--quiet"] p2.2
  match p1.1, p2.1, p3.1 with
  | true, _, true => .error (.flagConflict "-q" "-vv")
  | true, _, false => .ok (.spammy, p3.2)
  | false, false, false => .ok (.normal, p3.2)
  | false, false, true => .ok (.quiet, p3.2)
  | false, true, false => .ok (.verbose, p3.2)
  | false, true, true => .error (.flagConflict "-q" "-v")

/-- The tail of the `analysis-bench` arm after the target has been
determined (lines 204-222): `--memory-usage`, `--load-output-dirs`,
`--with-proc-macro`, then exactly one positional path. -/
def benchRest (verbosity : Verbosity) (logFile : Option String)
    (what : BenchWhat) (toks : List String) : ParseOutcome :=
  let pMemory := hasFlag ["--memory-usage"] toks
  let pLoad := hasFlag ["--load-output-dirs"] pMemory.2
  let pProc := hasFlag ["--with-proc-macro"] pLoad.2
  match takePositional1 pProc.2 with
  | .error e => .err e
  | .ok path =>
    .ok ⟨verbosity, logFile, .bench ⟨pMemory.1, path, what, pLoad.1, pProc.1⟩⟩

/-- The subcommand dispatch of `args.rs` lines 147-257: each recognized
subcommand reads its own flags; an unrecognized one prints the help text
and yields the `Help` command with the log file discarded (lines
253-256). -/
def runSubcommand (ext : Ext) (verbosity : Verbosity)
    (logFile : Option String) (sub : String) (toks : List String) :
    ParseOutcome :=
  match sub with
  | "parse" =>
    let p := hasFlag ["--no-dump"] toks
    match finish p.2 with
    | .error e => .err e
    | .ok _ => .ok ⟨verbosity, logFile, .parse p.1⟩
  | "symbols" =>
    match finish toks with
    | .error e => .err e
    | .ok _ => .ok ⟨verbosity, logFile, .symbols⟩
  | "highlight" =>
    let p := hasFlag ["--rainbow"] toks
    match finish p.2 with
    | .error e => .err e
    | .ok _ => .ok ⟨verbosity, logFile, .highlight p.1⟩
  | "analysis-stats" =>
    let pRandomize := hasFlag ["--randomize"] toks
    let pParallel := hasFlag ["--parallel"] pRandomize.2
    let pMemory := hasFlag ["--memory-usage"] pParallel.2
    match takeOptionValueStr ["-o", "--only"] pMemory.2 with
    | .error e => .err e
    | .ok (only, tOnly) =>
      let pWithDeps := hasFlag ["--with-deps"] tOnly
      let pLoad := hasFlag ["--load-output-dirs"] pWithDeps.2
      let pProc := hasFlag ["--with-proc-macro"] pLoad.2
      match takePositional1 pProc.2 with
      | .error e => .err e
      | .ok path =>
        .ok ⟨verbosity, logFile, .analysisStats
          ⟨pRandomize.1, pParallel.1, pMemory.1, only, pWithDeps.1, path,
            pLoad.1, pProc.1⟩⟩
  | "analysis-bench" =>
    match takeOptionValueStr ["--highlight"] toks with
    | .error e => .err e
    | .ok (highlightPath, tHl) =>
      match takeOptionValuePos ["--complete"] tHl with
      | .error e => .err e
      | .ok (completePos, tCm) =>
        match takeOptionValuePos ["--goto-def"] tCm with
        | .error e => .err e
        | .ok (gotoDefPos, tGd) =>
          match highlightPath, completePos, gotoDefPos with
          | some path, none, none =>
            benchRest verbosity logFile
              (.highlight (joinPath ext.currentDir path)) tGd
          | none, some position, none =>
            benchRest verbosity logFile (.complete position) tGd
          | none, none, some position =>
            benchRest verbosity logFile (.gotoDef position) tGd
          | _, _, _ => .panic benchPanicMsg
  | "diagnostics" =>
    let pLoad := hasFlag ["--load-output-dirs"] toks
    let pProc := hasFlag ["--with-proc-macro"] pLoad.2
    match takePositional1 pProc.2 with
    | .error e => .err e
    | .ok path =>
      .ok ⟨verbosity, logFile, .diagnostics path pLoad.1 pProc.1⟩
  | "proc-macro" => .ok ⟨verbosity, logFile, .procMacroServer⟩
  | "ssr" =>
    match takeRemainingAs ext.ruleParse toks with
    | .error e => .err e
    | .ok rules => .ok ⟨verbosity, logFile, .ssr rules⟩
  | "search" =>
    match takeOptionValueStr ["--debug"] toks with
    | .error e => .err e
    | .ok (debugSnippet, tDb) =>
      match takeRemainingAs ext.patParse tDb with
      | .error e => .err e
      | .ok patterns =>
        .ok ⟨verbosity, logFile, .structuredSearch debugSnippet patterns⟩
  | _ => .ok ⟨verbosity, none, .help⟩

/-- `Args::parse` (`args.rs` lines 109-259): the version gate, verbosity
resolution, log-file extraction, help gate and subcommand dispatch, in
that order. -/
def Args.parse (ext : Ext) (argv : List String) : ParseOutcome :=
  let pVersion := hasFlag ["--version"] argv
  if pVersion.1 then
    match finish pVersion.2 with
    | .error e => .err e
    | .ok _ => .ok ⟨.normal, none, .version⟩
  else
    match resolveVerbosity pVersion.2 with
    | .error e => .err e
    | .ok (verbosity, toksV) =>
      match takeOptionValueStr ["--log-file"] toksV with
      | .error e => .err e
      | .ok (logFile, toksL) =>
        let pHelp := hasFlag ["-h", "--help"] toksL
        if pHelp.1 then .ok ⟨verbosity, none, .help⟩
        else
          match takeSubcommand pHelp.2 with
          | (none, toksS) =>
            match finish toksS with
            | .error e => .err e
            | .ok _ => .ok ⟨verbosity, logFile, .runServer⟩
          | (some sub, toksS) => runSubcommand ext verbosity logFile sub toksS

/-- A closed instance of the external collaborators, for evaluating the
parser on concrete inputs: rule and pattern parsers that accept every
token, and a fixed current directory. -/
def extDefault : Ext :=
  ⟨fun s => some s, fun s => some s, "/work"⟩

/-- Follows the spec's words, for comparison with the source: the spec
states the `--no-dump` flag is "stored inverted as `suppress_output`",
i.e. the stored field would be the negation of the flag's presence. -/
def specSuppressOutput (noDumpPresent : Bool) : Bool :=
  !noDumpPresent

/-- The argument list reaches the subcommand dispatch with the given
resolved verbosity, log file and subcommand: `--version` is absent, the
verbosity and log-file stages succeed, `-h`/`--help` is absent, and the
first remaining token is the given subcommand. -/
def reaches (argv : List String) (verbosity : Verbosity)
    (logFile : Option String) (sub : String) (toks : List String) : Prop :=
  ∃ t0 t1 t2 t3,
    hasFlag ["--version"] argv = (false, t0) ∧
    resolveVerbosity t0 = .ok (verbosity, t1) ∧
    takeOptionValueStr ["--log-file"] t1 = .ok (logFile, t2) ∧
    hasFlag ["-h", "--help"] t2 = (false, t3) ∧
    takeSubcommand t3 = (some sub, toks)

/-- A token matching one of the aliases is a member of the alias list. -/
lemma mem_of_keyMatch {keys : List String} {t : String}
    (h : keyMatch keys t = true) : t ∈ keys := by
  simp only [keyMatch, List.any_eq_true, beq_iff_eq] at h
  obtain ⟨k, hk, rfl⟩ := h
  exact hk

/-- Removing the first occurrence of one flag group leaves the presence of
a disjoint flag group unchanged. -/
lemma hasAny_removeFirst (keys keysB : List String)
    (hdisj : ∀ t ∈ keysB, keyMatch keys t = false) :
    ∀ toks, hasAny keys (removeFirst keysB toks) = hasAny keys toks := by
  intro toks
  induction toks with
  | nil => rfl
  | cons t rest ih =>
    simp only [removeFirst]
    by_cases hk : keyMatch keysB t = true
    · rw [if_pos hk]
      have ht : keyMatch keys t = false := hdisj t (mem_of_keyMatch hk)
      simp [hasAny, ht]
    · rw [if_neg hk]
      simp [hasAny] at ih ⊢
      rw [ih]

/-- Consuming the `-vv` or `--spammy` flag does not affect the presence of
`-v` or `--verbose`. -/
lemma hasAny_v_stable (toks : List String) :
    hasAny ["-v", "--verbose"] (removeFirst ["-vv", "--spammy"] toks) =
      hasAny ["-v", "--verbose"] toks :=
  hasAny_removeFirst _ _ (by intro t ht; fin_cases ht <;> rfl) toks

/-- Consuming the spammy and verbose flag groups does not affect the
presence of `-q` or `--quiet`. -/
lemma hasAny_q_stable (toks : List String) :
    hasAny ["-q", "--quiet"]
        (removeFirst ["-v", "--verbose"] (removeFirst ["-vv", "--spammy"] toks)) =
      hasAny ["-q", "--quiet"] toks := by
  rw [hasAny_removeFirst _ _ (by intro t ht; fin_cases ht <;> rfl),
    hasAny_removeFirst _ _ (by intro t ht; fin_cases ht <;> rfl)]

/-- An argument list whose version gate, verbosity resolution, log-file
extraction and help gate all pass through hands the subcommand dispatch
exactly the extracted subcommand and the remaining tokens. -/
lemma parse_reaches (ext : Ext) {argv : List String} {verbosity : Verbosity}
    {logFile : Option String} {sub : String} {toks : List String}
    (h : reaches argv verbosity logFile sub toks) :
    Args.parse ext argv = runSubcommand ext verbosity logFile sub toks := by
  obtain ⟨t0, t1, t2, t3, h1, h2, h3, h4, h5⟩ := h
  simp only [Args.parse, h1, h2, h3, h4, h5]
  rfl

/-- When every remaining token converts, `take_remaining_as` succeeds with
a list of the same length whose i-th element is converted from the i-th
token. -/
lemma takeRemainingAs_ok (conv : String → Option α) :
    ∀ toks : List String, (∀ t ∈ toks, (conv t).isSome = true) →
      ∃ rs : List α, takeRemainingAs conv toks = .ok rs ∧
        rs.length = toks.length ∧
        ∀ i : Nat, (hi : i < toks.length) → (hri : i < rs.length) →
          conv (toks.get ⟨i, hi⟩) = some (rs.get ⟨i, hri⟩) := by
  intro toks
  induction toks with
  | nil =>
    intro _
    exact ⟨[], rfl, rfl, fun i hi _ => absurd hi (Nat.not_lt_zero i)⟩
  | cons t rest ih =>
    intro h
    have ht : (conv t).isSome = true := h t (List.mem_cons_self t rest)
    obtain ⟨r, hrq⟩ := Option.isSome_iff_exists.mp ht
    obtain ⟨rs, heq, hlen, hidx⟩ :=
      ih (fun x hx => h x (List.mem_cons_of_mem t hx))
    refine ⟨r :: rs, ?_, by simp [hlen], ?_⟩
    · simp [takeRemainingAs, hrq, heq]
    · intro i hi hri
      cases i with
      | zero => exact hrq
      | succ j =>
        exact hidx j (Nat.lt_of_succ_lt_succ hi) (Nat.lt_of_succ_lt_succ hri)

/-- Claim C1, amended: for every argument list reaching the
`analysis-bench` subcommand on which the extraction of the three target
options `--highlight`, `--complete`, `--goto-def` succeeds with a number
of supplied targets different from one, parsing aborts the process with
the fixed panic message — it does not return a recoverable error of a
distinct kind to the caller (the claimed MissingOrAmbiguousTarget error
kind does not exist in the code, which panics instead; the source marks
this at lines 200-202). -/
theorem benchTargetCount_panics (ext : Ext) (argv : List String)
    (verb : Verbosity) (lf : Option String) (toks tHl tCm tGd : List String)
    (hp : Option String) (cp gp : Option Position)
    (hr : reaches argv verb lf "analysis-bench" toks)
    (h1 : takeOptionValueStr ["--highlight"] toks = .ok (hp, tHl))
    (h2 : takeOptionValuePos ["--complete"] tHl = .ok (cp, tCm))
    (h3 : takeOptionValuePos ["--goto-def"] tCm = .ok (gp, tGd))
    (hcount : optCount hp + optCount cp + optCount gp ≠ 1) :
    Args.parse ext argv = .panic benchPanicMsg := by
  rw [parse_reaches ext hr]
  simp only [runSubcommand, h1, h2, h3]
  rcases hp with _ | p <;> rcases cp with _ | c <;> rcases gp with _ | g <;>
    first
      | rfl
      | simp [optCount] at hcount

/-- Claim C1, counterexample to the claim as stated: at the concrete
argument list `analysis-bench p` (zero of the three target options
present) parsing does not return a recoverable error — it aborts with the
panic message. -/
theorem benchTargetCount_counterexample :
    Args.parse extDefault ["analysis-bench", "p"] = .panic benchPanicMsg :=
  rfl

/-- Claim C1, witness: the amended theorem applied at the concrete
argument list `analysis-bench` (no target option supplied). -/
theorem benchTargetCount_witness :
    Args.parse extDefault ["analysis-bench"] = .panic benchPanicMsg :=
  benchTargetCount_panics extDefault ["analysis-bench"] .normal none
    [] [] [] [] none none none
    ⟨_, _, _, _, rfl, rfl, rfl, rfl, rfl⟩ rfl rfl rfl (by decide)

/-- Claim C2: for every argument list, when flags of at most one of the
three verbosity groups `-q` or `--quiet`, `-v` or `--verbose`, `-vv` or
`--spammy` are present the resolved verbosity is Quiet, Verbose, Spammy
respectively and Normal when none is present; when both the quiet and the
verbose groups are present (and the spammy group is not) resolution fails
with the flag conflict naming `-q` and `-v`, and when both the quiet and
the spammy groups are present it fails with the flag conflict naming `-q`
and `-vv` (`args.rs` lines 121-132). -/
theorem verbosityResolution_table (toks : List String) :
    (hasAny ["-vv", "--spammy"] toks = false →
      hasAny ["-v", "--verbose"] toks = false →
      hasAny ["-q", "--quiet"] toks = false →
      ∃ rest, resolveVerbosity toks = .ok (.normal, rest)) ∧
    (hasAny ["-vv", "--spammy"] toks = false →
      hasAny ["-v", "--verbose"] toks = false →
      hasAny ["-q", "--quiet"] toks = true →
      ∃ rest, resolveVerbosity toks = .ok (.quiet, rest)) ∧
    (hasAny ["-vv", "--spammy"] toks = false →
      hasAny ["-v", "--verbose"] toks = true →
      hasAny ["-q", "--quiet"] toks = false →
      ∃ rest, resolveVerbosity toks = .ok (.verbose, rest)) ∧
    (hasAny ["-vv", "--spammy"] toks = true →
      hasAny ["-v", "--verbose"] toks = false →
      hasAny ["-q", "--quiet"] toks = false →
      ∃ rest, resolveVerbosity toks = .ok (.spammy, rest)) ∧
    (hasAny ["-vv", "--spammy"] toks = false →
      hasAny ["-v", "--verbose"] toks = true →
      hasAny ["-q", "--quiet"] toks = true →
      resolveVerbosity toks = .error (.flagConflict "-q" "-v")) ∧
    (hasAny ["-vv", "--spammy"] toks = true →
      hasAny ["-q", "--quiet"] toks = true →
      resolveVerbosity toks = .error (.flagConflict "-q" "-vv")) := by
  refine ⟨?_, ?_, ?_, ?_, ?_, ?_⟩
  · intro hvv hv hq
    simp only [resolveVerbosity, hasFlag]
    rw [hasAny_v_stable, hasAny_q_stable, hvv, hv, hq]
    exact ⟨_, rfl⟩
  · intro hvv hv hq
    simp only [resolveVerbosity, hasFlag]
    rw [hasAny_v_stable, hasAny_q_stable, hvv, hv, hq]
    exact ⟨_, rfl⟩
  · intro hvv hv hq
    simp only [resolveVerbosity, hasFlag]
    rw [hasAny_v_stable, hasAny_q_stable, hvv, hv, hq]
    exact ⟨_, rfl⟩
  · intro hvv hv hq
    simp only [resolveVerbosity, hasFlag]
    rw [hasAny_v_stable, hasAny_q_stable, hvv, hv, hq]
    exact ⟨_, rfl⟩
  · intro hvv hv hq
    simp only [resolveVerbosity, hasFlag]
    rw [hasAny_v_stable, hasAny_q_stable, hvv, hv, hq]
  · intro hvv hq
    simp only [resolveVerbosity, hasFlag]
    rw [hasAny_q_stable, hvv, hq]

/-- Claim C2, witness: the conflict row of the table applied at the
concrete argument list `-q -v`. -/
theorem verbosityResolution_table_witness :
    resolveVerbosity ["-q", "-v"] = .error (.flagConflict "-q" "-v") :=
  (verbosityResolution_table ["-q", "-v"]).2.2.2.2.1 rfl rfl rfl

/-- Claim C3: when `--version` is present and removing it leaves a
non-empty remainder, parsing fails with the unrecognized-arguments error
naming exactly the leftover tokens — even though `--version` alone
succeeds with the Version command; the conclusion holds whatever the
leftover tokens are, so the version gate precedes verbosity, log-file,
help and subcommand resolution (`args.rs` lines 112-119, 262-273). -/
theorem versionGate_rejectsStrays (ext : Ext) :
    (∀ argv rest : List String, hasAny ["--version"] argv = true →
      removeFirst ["--version"] argv = rest → rest ≠ [] →
      Args.parse ext argv = .err (.unrecognizedArguments rest)) ∧
    Args.parse ext ["--version"] = .ok ⟨.normal, none, .version⟩ := by
  constructor
  · intro argv rest hv hrm hne
    simp only [Args.parse, hasFlag, hv, hrm]
    cases rest with
    | nil => exact absurd rfl hne
    | cons a l => rfl
  · rfl

/-- Claim C3, witness: `--version --foo` fails with the
unrecognized-arguments error naming `--foo`. -/
theorem versionGate_rejectsStrays_witness :
    Args.parse extDefault ["--version", "--foo"] =
      .err (.unrecognizedArguments ["--foo"]) :=
  (versionGate_rejectsStrays extDefault).1 ["--version", "--foo"] ["--foo"]
    rfl rfl (by decide)

/-- Claim C4, amended: the `proc-macro` arm maps directly to the
ProcMacroServer command without calling `finish()` (`args.rs` line 237),
so any unconsumed tokens remaining after `proc-macro` are silently
ignored and parsing succeeds — it does not fail with an
unrecognized-arguments error as the claim states. -/
theorem procMacroArm_ignoresLeftovers (ext : Ext) (argv : List String)
    (verb : Verbosity) (lf : Option String) (toks : List String)
    (hr : reaches argv verb lf "proc-macro" toks) :
    Args.parse ext argv = .ok ⟨verb, lf, .procMacroServer⟩ := by
  rw [parse_reaches ext hr]
  rfl

/-- Claim C4, counterexample to the claim as stated: at the concrete
argument list `proc-macro extra` the token `extra` remains unconsumed, yet
parsing succeeds with the ProcMacroServer command instead of failing. -/
theorem procMacroArm_counterexample :
    Args.parse extDefault ["proc-macro", "extra"] =
      .ok ⟨.normal, none, .procMacroServer⟩ :=
  rfl

/-- Claim C4, witness: the amended theorem applied at the concrete
argument list `proc-macro leftover`. -/
theorem procMacroArm_witness :
    Args.parse extDefault ["proc-macro", "leftover"] =
      .ok ⟨Verbosity.normal, none, Command.procMacroServer⟩ :=
  procMacroArm_ignoresLeftovers extDefault ["proc-macro", "leftover"]
    .normal none ["leftover"] ⟨_, _, _, _, rfl, rfl, rfl, rfl, rfl⟩

/-- Claim C5, amended: for every argument list reaching the `parse`
subcommand whose remaining tokens are exhausted by reading `--no-dump`,
parsing succeeds and the stored field of the Parse command (named
`no_dump` in the source, `suppress_output` in the spec) equals the
presence of the `--no-dump` flag directly — it is not the inversion of
that presence (`args.rs` lines 148-151 store the flag verbatim). -/
theorem parseNoDump_storedDirectly (ext : Ext) (argv : List String)
    (verb : Verbosity) (lf : Option String) (toks : List String)
    (noDump : Bool)
    (hr : reaches argv verb lf "parse" toks)
    (h1 : hasFlag ["--no-dump"] toks = (noDump, [])) :
    Args.parse ext argv = .ok ⟨verb, lf, .parse noDump⟩ ∧
      noDump = hasAny ["--no-dump"] toks := by
  constructor
  · rw [parse_reaches ext hr]
    simp only [runSubcommand, h1]
    rfl
  · have hfst := congrArg Prod.fst h1
    simpa [hasFlag] using hfst.symm

/-- Claim C5, counterexample to the claim as stated: at the concrete
argument list `parse --no-dump` the stored field is `true`, whereas the
claimed inversion of the flag's presence (`specSuppressOutput true`)
would be `false`. -/
theorem parseNoDump_counterexample :
    Args.parse extDefault ["parse", "--no-dump"] =
        .ok ⟨.normal, none, .parse true⟩ ∧
      specSuppressOutput true ≠ true :=
  ⟨rfl, by decide⟩

/-- Claim C5, witness: the amended theorem applied at the concrete
argument list `parse` (flag absent, stored field `false`). -/
theorem parseNoDump_witness :
    Args.parse extDefault ["parse"] = .ok ⟨.normal, none, .parse false⟩ ∧
      false = hasAny ["--no-dump"] [] :=
  parseNoDump_storedDirectly extDefault ["parse"] .normal none [] false
    ⟨_, _, _, _, rfl, rfl, rfl, rfl, rfl⟩ rfl

/-- Claim C6: for every argument list reaching the `analysis-stats`
subcommand on which the subcommand's flag reads succeed, if the number of
remaining positional (non-flag) tokens differs from one parsing fails
with the arity error, and if exactly one remains parsing succeeds with
that token recorded verbatim as the project path (`args.rs` lines
162-188). -/
theorem analysisStatsArity (ext : Ext) (argv : List String)
    (verb : Verbosity) (lf : Option String)
    (toks tA tB tC tD tE tF tG : List String)
    (randomize parallel memoryUsage withDeps loadOutputDirs withProcMacro : Bool)
    (only : Option String)
    (hr : reaches argv verb lf "analysis-stats" toks)
    (h1 : hasFlag ["--randomize"] toks = (randomize, tA))
    (h2 : hasFlag ["--parallel"] tA = (parallel, tB))
    (h3 : hasFlag ["--memory-usage"] tB = (memoryUsage, tC))
    (h4 : takeOptionValueStr ["-o", "--only"] tC = .ok (only, tD))
    (h5 : hasFlag ["--with-deps"] tD = (withDeps, tE))
    (h6 : hasFlag ["--load-output-dirs"] tE = (loadOutputDirs, tF))
    (h7 : hasFlag ["--with-proc-macro"] tF = (withProcMacro, tG)) :
    ((tG.filter (fun t => !(isFlag t))).length ≠ 1 →
      Args.parse ext argv = .err .arityMismatch) ∧
    (∀ p, tG.filter (fun t => !(isFlag t)) = [p] →
      Args.parse ext argv = .ok ⟨verb, lf, .analysisStats
        ⟨randomize, parallel, memoryUsage, only, withDeps, p,
          loadOutputDirs, withProcMacro⟩⟩) := by
  have hd := parse_reaches ext hr
  constructor
  · intro hlen
    rw [hd]
    simp only [runSubcommand, h1, h2, h3, h4, h5, h6, h7]
    cases hfil : tG.filter (fun t => !(isFlag t)) with
    | nil => simp [takePositional1, hfil]
    | cons p ps =>
      cases ps with
      | nil => rw [hfil] at hlen; simp at hlen
      | cons q r => simp [takePositional1, hfil]
  · intro p hfil
    rw [hd]
    simp only [runSubcommand, h1, h2, h3, h4, h5, h6, h7]
    simp [takePositional1, hfil]

/-- Claim C6, witness: the success half applied at the concrete argument
list `analysis-stats proj`, recording the path verbatim. -/
theorem analysisStatsArity_witness :
    Args.parse extDefault ["analysis-stats", "proj"] =
      .ok ⟨.normal, none, .analysisStats
        ⟨false, false, false, none, false, "proj", false, false⟩⟩ :=
  (analysisStatsArity extDefault ["analysis-stats", "proj"] .normal none
    ["proj"] ["proj"] ["proj"] ["proj"] ["proj"] ["proj"] ["proj"] ["proj"]
    false false false false false false none
    ⟨_, _, _, _, rfl, rfl, rfl, rfl, rfl⟩
    rfl rfl rfl rfl rfl rfl rfl).2 "proj" rfl

/-- Claim C7: for every argument list reaching the `ssr` subcommand whose
remaining tokens each parse as a rule, parsing succeeds with the Ssr
command whose rule list has the same length as the token sequence and
preserves its order — the i-th rule is parsed from the i-th token
(`args.rs` lines 238-244). -/
theorem ssrRules_preserveOrder (ext : Ext) (argv : List String)
    (verb : Verbosity) (lf : Option String) (toks : List String)
    (hr : reaches argv verb lf "ssr" toks)
    (hall : ∀ t ∈ toks, (ext.ruleParse t).isSome = true) :
    ∃ rules, Args.parse ext argv = .ok ⟨verb, lf, .ssr rules⟩ ∧
      rules.length = toks.length ∧
      ∀ i : Nat, (hi : i < toks.length) → (hri : i < rules.length) →
        ext.ruleParse (toks.get ⟨i, hi⟩) = some (rules.get ⟨i, hri⟩) := by
  obtain ⟨rs, heq, hlen, hidx⟩ := takeRemainingAs_ok ext.ruleParse toks hall
  refine ⟨rs, ?_, hlen, hidx⟩
  rw [parse_reaches ext hr]
  simp only [runSubcommand, heq]

/-- Claim C7, witness: two rule tokens yield a rule list of length two in
input order. -/
theorem ssrRules_preserveOrder_witness :
    ∃ rules, Args.parse extDefault ["ssr", "a", "b"] =
        .ok ⟨Verbosity.normal, none, Command.ssr rules⟩ ∧
      rules.length = (["a", "b"] : List String).length ∧
      ∀ i : Nat, (hi : i < (["a", "b"] : List String).length) →
        (hri : i < rules.length) →
        extDefault.ruleParse ((["a", "b"] : List String).get ⟨i, hi⟩) =
          some (rules.get ⟨i, hri⟩) :=
  ssrRules_preserveOrder extDefault ["ssr", "a", "b"] .normal none ["a", "b"]
    ⟨_, _, _, _, rfl, rfl, rfl, rfl, rfl⟩ (fun _ _ => rfl)

/-- Claim C8: for every argument list without `--version` on which
verbosity resolution and `--log-file` extraction succeed and `-h` or
`--help` remains present, parsing terminates successfully with the Help
command and no log file — the extracted log file is discarded — whatever
other tokens remain (`args.rs` lines 135-138). -/
theorem helpGate_discardsLogFile (ext : Ext) (argv t0 t1 t2 : List String)
    (verb : Verbosity) (lf : Option String)
    (h1 : hasFlag ["--version"] argv = (false, t0))
    (h2 : resolveVerbosity t0 = .ok (verb, t1))
    (h3 : takeOptionValueStr ["--log-file"] t1 = .ok (lf, t2))
    (h4 : hasAny ["-h", "--help"] t2 = true) :
    Args.parse ext argv = .ok ⟨verb, none, .help⟩ := by
  simp only [Args.parse, h1, h2, h3]
  simp only [hasFlag]
  rw [h4]
  rfl

/-- Claim C8, witness: `--log-file f -h` succeeds with the Help command
and the extracted log file discarded. -/
theorem helpGate_discardsLogFile_witness :
    Args.parse extDefault ["--log-file", "f", "-h"] =
      .ok ⟨Verbosity.normal, none, Command.help⟩ :=
  helpGate_discardsLogFile extDefault ["--log-file", "f", "-h"]
    ["--log-file", "f", "-h"] ["--log-file", "f", "-h"] ["-h"]
    .normal (some "f") rfl rfl rfl rfl

/-- Claim C9: for every argument list reaching the subcommand dispatch
with a first non-flag token that is none of the nine recognized
subcommand names, parsing succeeds with the Help command rather than
returning an error (`args.rs` lines 253-256). -/
theorem unknownSubcommand_showsHelp (ext : Ext) (argv : List String)
    (verb : Verbosity) (lf : Option String) (sub : String)
    (toks : List String)
    (hr : reaches argv verb lf sub toks)
    (hsub : sub ∉ ["parse", "symbols", "highlight", "analysis-stats",
      "analysis-bench", "diagnostics", "proc-macro", "ssr", "search"]) :
    Args.parse ext argv = .ok ⟨verb, none, .help⟩ := by
  rw [parse_reaches ext hr]
  simp only [List.mem_cons, List.mem_singleton, not_or] at hsub
  obtain ⟨n1, n2, n3, n4, n5, n6, n7, n8, n9⟩ := hsub
  simp [runSubcommand, n1, n2, n3, n4, n5, n6, n7, n8, n9]

/-- Claim C9, witness: `unknown-subcommand` yields the Help command. -/
theorem unknownSubcommand_showsHelp_witness :
    Args.parse extDefault ["unknown-subcommand"] =
      .ok ⟨Verbosity.normal, none, Command.help⟩ :=
  unknownSubcommand_showsHelp extDefault ["unknown-subcommand"] .normal none
    "unknown-subcommand" [] ⟨_, _, _, _, rfl, rfl, rfl, rfl, rfl⟩
    (by decide)

/-- Claim C10: for every argument list containing both the verbose and
the spammy flag groups but not the quiet group, verbosity resolution does
not fail with a flag conflict — it resolves to Spammy, the `-vv` group
taking precedence over `-v` (`args.rs` lines 121-132, rows
`(true, _, false)`). -/
theorem spammyOverridesVerbose (toks : List String)
    (hvv : hasAny ["-vv", "--spammy"] toks = true)
    (hv : hasAny ["-v", "--verbose"] toks = true)
    (hq : hasAny ["-q", "--quiet"] toks = false) :
    ∃ rest, resolveVerbosity toks = .ok (.spammy, rest) := by
  simp only [resolveVerbosity, hasFlag]
  rw [hasAny_v_stable, hasAny_q_stable, hvv, hv, hq]
  exact ⟨_, rfl⟩

/-- Claim C10, witness: `-v -vv` resolves to Spammy. -/
theorem spammyOverridesVerbose_witness :
    ∃ rest, resolveVerbosity ["-v", "-vv"] = .ok (.spammy, rest) :=
  spammyOverridesVerbose ["-v", "-vv"] rfl rfl rfl

end ArgsRs
